import Mathlib

/-!
Shallow embedding of the verification cores of the stylus-zkvm-verifiers
repository (Rust, Arbitrum Stylus).  Machine integers (`U256`, `u64`, bytes)
are modelled as `Nat` with explicit reduction: the `alloy_primitives::U256`
arithmetic operators used by the source (`*`, `+` via `wrapping_mul` /
`wrapping_add`, and the plain operators of the `ruint` backend, which wrap
silently in the deployed release build) are modelled as arithmetic modulo
`2 ^ 256`.  Byte strings are `List Nat` (each entry a byte value).  The EVM
precompile layer (`RawCall` to the `ECADD`/`ECMUL`/`ECPAIRING`/`SHA256`
addresses) is modelled as an abstract deterministic oracle
`addr → calldata → Option returndata`, and every operation that performs
oracle calls also returns the list of calls it issued, so that theorems can
speak about which precompiles were invoked and with which calldata.
-/

set_option maxRecDepth 100000

namespace Zk

/-- Two to the 256: the wrap-around modulus of the source's `U256` values. -/
def U256LIM : Nat := 2 ^ 256

/-- Wrapping reduction of a `U256` intermediate (ruint release-mode operator
semantics: `wrapping_mul` / `wrapping_add`). -/
def wrap (x : Nat) : Nat := x % U256LIM

/-- Source `a.wrapping_mul(b)`. -/
def wmul (a b : Nat) : Nat := (a * b) % U256LIM

/-- Source `a.wrapping_add(b)`. -/
def wadd (a b : Nat) : Nat := (a + b) % U256LIM

/-- Source `a.wrapping_sub(b)` (for arguments below `2 ^ 256`). -/
def wsub (a b : Nat) : Nat := (a + U256LIM - b % U256LIM) % U256LIM

/-- BN254 scalar-field prime `r`, the constant `R` of
`src/contracts/src/common/groth16.rs` (also `R_MOD` of the missing
`sp1/plonk/config.rs`; the spec, section 3, names it the BN254 scalar
prime). -/
def R_MOD : Nat :=
  0x30644E72E131A029B85045B68181585D2833E84879B9709143E1F593F0000001

/-- BN254 base-field prime `q`, the constant `Q` of
`src/contracts/src/common/groth16.rs` (`P_MOD` in the sp1 plonk layer). -/
def Q_MOD : Nat :=
  0x30644E72E131A029B85045B68181585D97816A916871CA8D3C208C16D87CFD47

/-- Little-endian byte decomposition, `n` bytes. -/
def leBytes : Nat → Nat → List Nat
  | 0, _ => []
  | n + 1, x => x % 256 :: leBytes n (x / 256)

/-- Source `U256::to_be_bytes::<n>()`: `n`-byte big-endian encoding. -/
def beBytes (n x : Nat) : List Nat := (leBytes n x).reverse

/-- Source `U256::from_be_slice`: big-endian byte-list to integer. -/
def fromBeBytes (l : List Nat) : Nat := l.foldl (fun a b => a * 256 + b) 0

/-- An affine BN254 G1 point as the source holds it: two `U256`
coordinates; `(0, 0)` encodes the point at infinity. -/
structure G1Point where
  x : Nat
  y : Nat
deriving DecidableEq, Repr

/-- A BN254 G2 point as the source holds it: `x = [x_c0, x_c1]`,
`y = [y_c0, y_c1]` (fields `x0` = `x[0]`, `x1` = `x[1]`, etc.). -/
structure G2Point where
  x0 : Nat
  x1 : Nat
  y0 : Nat
  y1 : Nat
deriving DecidableEq, Repr

/-- One raw precompile invocation: target address and calldata bytes. -/
structure OCall where
  addr : Nat
  data : List Nat
deriving DecidableEq, Repr

/-- The precompile oracle: address and calldata to optional return data
(`none` models a failed `RawCall`). -/
def Oracle : Type := Nat → List Nat → Option (List Nat)

/-! ## sp1/plonk/crypto.rs, module `math` -/

/-- Source `math::mod_add`: overflowing add with a single conditional
subtraction of the modulus (the `res - m` subtraction is the wrapping
`U256` operator). -/
def mod_add (a b m : Nat) : Nat :=
  let res := (a + b) % U256LIM
  if U256LIM ≤ a + b ∨ m ≤ res then wsub res m else res

/-- Source `math::mod_sub`. -/
def mod_sub (a b m : Nat) : Nat :=
  if b ≤ a then a - b else m - (b - a)

/-- Source `math::mod_mul`, exactly as written: `(a % m * b % m) % m`.
Rust parses this as `(((a % m) * b) % m) % m`, and the `*` is the
`U256` operator, which wraps at `2 ^ 256`; no 512-bit intermediate is
used. -/
def mod_mul (a b m : Nat) : Nat := (((a % m) * b) % U256LIM % m) % m

/-- Loop body of `math::pow_mod` (square-and-multiply, right-to-left bit
scan), with fuel for the loop; the source's `exp` is a `U256`, so 256
iterations always suffice. -/
def pow_mod_aux : Nat → Nat → Nat → Nat → Nat → Nat
  | 0, _, _, _, res => res
  | fuel + 1, base, exp, m, res =>
    if exp = 0 then res
    else
      pow_mod_aux fuel (mod_mul base base m) (exp / 2) m
        (if exp % 2 = 1 then mod_mul res base m else res)

/-- Source `math::pow_mod`. -/
def pow_mod (base exp m : Nat) : Nat :=
  pow_mod_aux 256 (base % m) exp m 1

/-- Source `math::mod_inv`: Fermat inverse `a ^ (m - 2) mod m`, `none` on
zero. -/
def mod_inv (a m : Nat) : Option Nat :=
  if a = 0 then none else some (pow_mod a (m - 2) m)

/-- Prefix-product table of `math::batch_invert`: entry `i` is
`prefix[i]`, with `prefix[0] = 1` and
`prefix[i] = mod_mul(prefix[i-1], fr[i-1], m)`; `cur` carries the running
product. -/
def bi_ptable (m cur : Nat) : List Nat → List Nat
  | [] => []
  | a :: rest => cur :: bi_ptable m (mod_mul cur a m) rest

/-- Backward scan of `math::batch_invert` (iterating `i` from `n-1` down
to `0`, here over the reversed element and prefix lists): emits
`res[i] = mod_mul(acc, prefix[i], m)` and updates
`acc = mod_mul(acc, fr[i], m)`. -/
def bi_back (m : Nat) : Nat → List Nat → List Nat → List Nat
  | _, [], _ => []
  | _, _, [] => []
  | acc, a :: frR, p :: pR => mod_mul acc p m :: bi_back m (mod_mul acc a m) frR pR

/-- Source `math::batch_invert` (Montgomery's trick, modulus
`config::R_MOD`): builds prefix products, inverts the single total
product `mod_mul(prefix[n-1], fr[n-1])` by `mod_inv`, then scans
backwards.  All products use the source's `mod_mul`. -/
def batch_invert (fr : List Nat) : Option (List Nat) :=
  match fr with
  | [] => some []
  | _ =>
    let n := fr.length
    let pfx := bi_ptable R_MOD 1 fr
    let total := mod_mul (pfx.getD (n - 1) 1) (fr.getD (n - 1) 0) R_MOD
    match mod_inv total R_MOD with
    | none => none
    | some acc0 => some (bi_back R_MOD acc0 fr.reverse pfx.reverse).reverse

/-! ## sp1/plonk/crypto.rs, modules `sha2evm` and `ec`

The precompile addresses come from the `sp1/plonk/config.rs` constants
(`SHA2 = 0x02`, `EC_ADD = 0x06`, `EC_MUL = 0x07`, `EC_PAIR = 0x08`, the
standard Ethereum precompile addresses named in the source's comments and
in spec section 6). -/

/-- Source `sha2evm::sha256`: calls the SHA256 precompile and, on a failed
call, silently substitutes the all-zero 32-byte digest
(`.unwrap_or([0u8; 32])`).  A successful return shorter than 32 bytes
would panic in `copy_from_slice`; that (unreachable for the real
precompile) case is modelled as the failure substitute. -/
def sha2evm_sha256 (o : Oracle) (data : List Nat) : List Nat :=
  match o 2 data with
  | some ret => if 32 ≤ ret.length then ret.take 32 else List.replicate 32 0
  | none => List.replicate 32 0

/-- Calldata that source `ec::ec_add` actually sends.  The source writes
`p.x.to_be_bytes::<32>().copy_from_slice(&mut input[0..32])` (and three
more of the same shape): each call copies the still-zero `input` slice
INTO a discarded temporary byte array, so the 128-byte `input` buffer is
never written and is sent to the precompile still all zero, whatever `p`
and `q` are. -/
def ec_add_calldata (_p _q : G1Point) : List Nat := List.replicate 128 0

/-- Calldata that source `ec::ec_mul` actually sends: the same reversed
`copy_from_slice` pattern leaves the 96-byte buffer all zero. -/
def ec_mul_calldata (_p : G1Point) (_s : Nat) : List Nat := List.replicate 96 0

/-- Source `ec::ec_add`: EcAdd precompile call, error propagated as
`none`; also returns the issued call. -/
def ec_add (o : Oracle) (p q : G1Point) : Option G1Point × List OCall :=
  let cd := ec_add_calldata p q
  (match o 6 cd with
   | some ret =>
     if 64 ≤ ret.length then
       some ⟨fromBeBytes (ret.take 32), fromBeBytes ((ret.drop 32).take 32)⟩
     else none
   | none => none, [⟨6, cd⟩])

/-- Source `ec::ec_mul`: EcMul precompile call, error propagated as
`none`; also returns the issued call. -/
def ec_mul (o : Oracle) (p : G1Point) (s : Nat) : Option G1Point × List OCall :=
  let cd := ec_mul_calldata p s
  (match o 7 cd with
   | some ret =>
     if 64 ≤ ret.length then
       some ⟨fromBeBytes (ret.take 32), fromBeBytes ((ret.drop 32).take 32)⟩
     else none
   | none => none, [⟨7, cd⟩])

/-- Source `ec::g1_neg`: infinity-preserving negation `(x, P_MOD - y)`. -/
def g1_neg (p : G1Point) : G1Point :=
  if p.x = 0 ∧ p.y = 0 then p else ⟨p.x, Q_MOD - p.y⟩

/-- Source `ec::pairing` calldata for one `(G1, G2)` pair:
`x ‖ y ‖ x[0] ‖ x[1] ‖ y[0] ‖ y[1]` (the c0 component first, as this file
writes it). -/
def pairing_pair_bytes (g1 : G1Point) (g2 : G2Point) : List Nat :=
  beBytes 32 g1.x ++ beBytes 32 g1.y ++ beBytes 32 g2.x0 ++ beBytes 32 g2.x1 ++
    beBytes 32 g2.y0 ++ beBytes 32 g2.y1

/-- Source `ec::pairing`: one EcPairing precompile call over the
concatenated pairs; `true` iff the 32-byte return word is nonzero;
a failed call propagates as `none`. -/
def ec_pairing (o : Oracle) (pairs : List (G1Point × G2Point)) :
    Option Bool × List OCall :=
  let cd := (pairs.map (fun pq => pairing_pair_bytes pq.1 pq.2)).flatten
  (match o 8 cd with
   | some ret =>
     if 32 ≤ ret.length then some (fromBeBytes (ret.take 32) != 0) else none
   | none => none, [⟨8, cd⟩])

/-- Source `ec::msm`: accumulator-style multi-scalar multiplication,
skipping zero scalars, starting from the `(0, 0)` encoding of infinity. -/
def msm_go (o : Oracle) : G1Point → List (G1Point × Nat) →
    Option G1Point × List OCall
  | acc, [] => (some acc, [])
  | acc, (p, s) :: rest =>
    if s = 0 then msm_go o acc rest
    else
      match ec_mul o p s with
      | (some ps, l1) =>
        match ec_add o acc ps with
        | (some acc2, l2) =>
          let (r, l3) := msm_go o acc2 rest
          (r, l1 ++ l2 ++ l3)
        | (none, l2) => (none, l1 ++ l2)
      | (none, l1) => (none, l1)

/-- Source `ec::msm` entry point (points and scalars zipped as the
source's `iter().zip` does). -/
def msm (o : Oracle) (points : List G1Point) (scalars : List Nat) :
    Option G1Point × List OCall :=
  msm_go o ⟨0, 0⟩ (points.zip scalars)

/-! ## sp1/plonk/crypto.rs, module `fs` (Fiat-Shamir transcript) -/

/-- ASCII bytes of a challenge name (source `id.as_bytes()`). -/
def strBytes (s : String) : List Nat := s.data.map Char.toNat

/-- Source `fs::Challenge`: one named transcript slot. -/
structure Challenge where
  position : Nat
  bindings : List (List Nat)
  value : List Nat
  computed : Bool
  id : String
deriving DecidableEq, Repr

/-- Source `fs::Transcript`: the ordered slots and the index of the last
computed slot (`-1` initially). -/
structure Transcript where
  ordered : List Challenge
  last_pos : Int
deriving DecidableEq, Repr

/-- Source `fs::Transcript::new`. -/
def Transcript.new (ids : List String) : Transcript :=
  { ordered := ids.enum.map fun pi =>
      { position := pi.1, bindings := [], value := List.replicate 32 0,
        computed := false, id := pi.2 }
    last_pos := -1 }

/-- Source `fs::Transcript::idx_of`: index of the first slot with the
given id, scanning in order. -/
def idx_of_go (id : String) : Nat → List Challenge → Option Nat
  | _, [] => none
  | i, c :: rest => if c.id = id then some i else idx_of_go id (i + 1) rest

/-- Source `fs::Transcript::idx_of` entry point. -/
def Transcript.idx_of (t : Transcript) (id : String) : Option Nat :=
  idx_of_go id 0 t.ordered

/-- Source `fs::Transcript::bind`: append a byte string to a slot's
binding list; fails if the slot is unknown or already computed. -/
def Transcript.bind (t : Transcript) (id : String) (bytes : List Nat) :
    Option Transcript :=
  match t.idx_of id with
  | none => none
  | some idx =>
    match t.ordered.get? idx with
    | none => none
    | some c =>
      if c.computed then none
      else
        some { t with
          ordered := t.ordered.set idx { c with bindings := c.bindings ++ [bytes] } }

/-- Source `fs::Transcript::compute`, parameterized by the hash
`sha` (the source calls `sha2evm::sha256`): an already-computed slot
returns its cached value unchanged and without touching `last_pos`; an
out-of-order slot errs; otherwise the slot hashes
`name ‖ previous value ‖ bindings`, is marked computed, and `last_pos`
advances to its index. -/
def Transcript.compute (sha : List Nat → List Nat) (t : Transcript)
    (id : String) : Option (List Nat × Transcript) :=
  match t.idx_of id with
  | none => none
  | some idx =>
    match t.ordered.get? idx with
    | none => none
    | some c =>
      if c.computed then some (c.value, t)
      else if (idx : Int) ≠ t.last_pos + 1 then none
      else
        let prev : List Nat :=
          if 0 ≤ t.last_pos then
            match t.ordered.get? t.last_pos.toNat with
            | some pc => pc.value
            | none => []
          else []
        let h := sha (strBytes id ++ prev ++ c.bindings.flatten)
        some (h,
          { ordered := t.ordered.set idx { c with value := h, computed := true }
            last_pos := (idx : Int) })

/-- Source `fs::to_fr_mod_r`. -/
def to_fr_mod_r (bytes32 : List Nat) : Nat := fromBeBytes bytes32 % R_MOD

/-! ## risc0/types.rs and risc0/config.rs -/

/-- The `SYSTEM_STATE_ZERO_DIGEST` constant of `risc0/config.rs`. -/
def SYSTEM_STATE_ZERO_DIGEST : List Nat :=
  [0xa3, 0xac, 0xc2, 0x71, 0x17, 0x41, 0x89, 0x96, 0x34, 0x0b, 0x84, 0xe5,
   0xa9, 0x0f, 0x3e, 0xf4, 0xc4, 0x9d, 0x22, 0xc7, 0x9e, 0x44, 0xaa, 0xd8,
   0x22, 0xec, 0x9c, 0x31, 0x3e, 0x1e, 0xb8, 0xe2]

/-- Tag constant `tags::RECEIPT_CLAIM_TAG`. -/
def RECEIPT_CLAIM_TAG : List Nat := strBytes "risc0.ReceiptClaim"

/-- Tag constant `tags::OUTPUT_TAG`. -/
def OUTPUT_TAG : List Nat := strBytes "risc0.Output"

/-- Source `risc0/types.rs` `ReceiptClaim` (the `B256` fields as 32-byte
strings; `exit_code` flattened into its `system` discriminant value and
`user` byte). -/
structure ReceiptClaim where
  pre_state_digest : List Nat
  post_state_digest : List Nat
  exit_system : Nat
  exit_user : Nat
  input : List Nat
  output : List Nat
deriving DecidableEq, Repr

/-- Source `Output::digest`, parameterized by the SHA-256 function of the
`sha2` crate: `SHA256( SHA256(tag) ‖ journal ‖ assumptions ‖ be16(2 << 8) )`. -/
def Output.digest (sha : List Nat → List Nat)
    (journal_digest assumptions_digest : List Nat) : List Nat :=
  sha (sha OUTPUT_TAG ++ journal_digest ++ assumptions_digest ++
    beBytes 2 (2 <<< 8))

/-- Source `ReceiptClaim::ok`: the successful-execution claim with
`pre_state = image_id`, `post_state = SYSTEM_STATE_ZERO_DIGEST`,
exit code `(Halted = 0, 0)`, zero input, and
`output = Output(journal_digest, 0).digest()`. -/
def ReceiptClaim.ok (sha : List Nat → List Nat)
    (image_id journal_digest : List Nat) : ReceiptClaim :=
  { pre_state_digest := image_id
    post_state_digest := SYSTEM_STATE_ZERO_DIGEST
    exit_system := 0
    exit_user := 0
    input := List.replicate 32 0
    output := Output.digest sha journal_digest (List.replicate 32 0) }

/-- Source `ReceiptClaim::digest`: the tagged SHA-256 struct hash over
tag digest, `input`, `pre_state`, `post_state`, `output`, the two 32-bit
big-endian exit-code words (`system << 24`, `user << 24`, as `u32`), and
the 16-bit word `4 << 8`. -/
def ReceiptClaim.digest (sha : List Nat → List Nat) (c : ReceiptClaim) :
    List Nat :=
  sha (sha RECEIPT_CLAIM_TAG ++ c.input ++ c.pre_state_digest ++
    c.post_state_digest ++ c.output ++
    beBytes 4 ((c.exit_system <<< 24) % 2 ^ 32) ++
    beBytes 4 ((c.exit_user <<< 24) % 2 ^ 32) ++ beBytes 2 (4 <<< 8))

/-! ## common/groth16.rs -/

/-- Source `common/groth16.rs` `VerificationKey`. -/
structure G16VerificationKey where
  alpha1 : G1Point
  beta2 : G2Point
  gamma2 : G2Point
  delta2 : G2Point
  ic : List G1Point
deriving DecidableEq, Repr

/-- Source `Groth16Verifier::negate`: infinity-preserving,
otherwise `(x, Q - (y % Q))`. -/
def g16_negate (p : G1Point) : G1Point :=
  if p.x = 0 ∧ p.y = 0 then p else ⟨p.x, Q_MOD - p.y % Q_MOD⟩

/-- Source `Groth16Verifier::point_add`: EcAdd precompile (address 6)
with calldata `x1 ‖ y1 ‖ x2 ‖ y2`; a failed call or a short return (the
source would panic slicing it) is an error. -/
def g16_point_add (o : Oracle) (p1 p2 : G1Point) :
    Option G1Point × List OCall :=
  let cd := beBytes 32 p1.x ++ beBytes 32 p1.y ++ beBytes 32 p2.x ++
    beBytes 32 p2.y
  (match o 6 cd with
   | some ret =>
     if 64 ≤ ret.length then
       some ⟨fromBeBytes (ret.take 32), fromBeBytes ((ret.drop 32).take 32)⟩
     else none
   | none => none, [⟨6, cd⟩])

/-- Source `Groth16Verifier::scalar_mul`: EcMul precompile (address 7)
with calldata `x ‖ y ‖ s`. -/
def g16_scalar_mul (o : Oracle) (p : G1Point) (s : Nat) :
    Option G1Point × List OCall :=
  let cd := beBytes 32 p.x ++ beBytes 32 p.y ++ beBytes 32 s
  (match o 7 cd with
   | some ret =>
     if 64 ≤ ret.length then
       some ⟨fromBeBytes (ret.take 32), fromBeBytes ((ret.drop 32).take 32)⟩
     else none
   | none => none, [⟨7, cd⟩])

/-- The 24-word EcPairing calldata of `Groth16Verifier::pairing_check`:
for each pair, `g1.x ‖ g1.y ‖ g2.x[1] ‖ g2.x[0] ‖ g2.y[1] ‖ g2.y[0]`
(the c1 component first, as this file writes it). -/
def g16_pairing_calldata (a1 : G1Point) (a2 : G2Point) (b1 : G1Point)
    (b2 : G2Point) (c1 : G1Point) (c2 : G2Point) (d1 : G1Point)
    (d2 : G2Point) : List Nat :=
  beBytes 32 a1.x ++ beBytes 32 a1.y ++ beBytes 32 a2.x1 ++ beBytes 32 a2.x0 ++
    beBytes 32 a2.y1 ++ beBytes 32 a2.y0 ++
  beBytes 32 b1.x ++ beBytes 32 b1.y ++ beBytes 32 b2.x1 ++ beBytes 32 b2.x0 ++
    beBytes 32 b2.y1 ++ beBytes 32 b2.y0 ++
  beBytes 32 c1.x ++ beBytes 32 c1.y ++ beBytes 32 c2.x1 ++ beBytes 32 c2.x0 ++
    beBytes 32 c2.y1 ++ beBytes 32 c2.y0 ++
  beBytes 32 d1.x ++ beBytes 32 d1.y ++ beBytes 32 d2.x1 ++ beBytes 32 d2.x0 ++
    beBytes 32 d2.y1 ++ beBytes 32 d2.y0

/-- Rust bitwise complement of a byte (`!b` for `b: u8`). -/
def rust_not_u8 (b : Nat) : Nat := 255 - b % 256

/-- Source `Groth16Verifier::pairing_check`: one EcPairing precompile
call (address 8); the boolean result is literally `!ret[31] != 0`, the
bitwise complement of the last returned byte compared against zero.  A
failed call propagates as `none`; a return shorter than 32 bytes (which
the source would panic indexing) is also an error. -/
def g16_pairing_check (o : Oracle) (a1 : G1Point) (a2 : G2Point)
    (b1 : G1Point) (b2 : G2Point) (c1 : G1Point) (c2 : G2Point)
    (d1 : G1Point) (d2 : G2Point) : Option Bool × List OCall :=
  let cd := g16_pairing_calldata a1 a2 b1 b2 c1 c2 d1 d2
  (match o 8 cd with
   | some ret =>
     if 32 ≤ ret.length then some (rust_not_u8 (ret.getD 31 0) != 0) else none
   | none => none, [⟨8, cd⟩])

/-- The public-signal accumulation loop of
`Groth16Verifier::verify_proof_with_key`: for each `(sig, ic)` pair,
`scalar_mul` then `point_add` onto the accumulator; any error aborts. -/
def g16_vkx_go (o : Oracle) : G1Point → List (Nat × G1Point) →
    Option G1Point × List OCall
  | acc, [] => (some acc, [])
  | acc, (sig, ic) :: rest =>
    match g16_scalar_mul o ic sig with
    | (some p, l1) =>
      match g16_point_add o acc p with
      | (some t, l2) =>
        let (r, l3) := g16_vkx_go o t rest
        (r, l1 ++ l2 ++ l3)
      | (none, l2) => (none, l1 ++ l2)
    | (none, l1) => (none, l1)

/-- Source `Groth16Verifier::verify_proof_with_key`: length check, field
check on the public signals, the `vk_x` MSM loop, then the four-pair
pairing check on `(-A, B), (α, β), (vk_x, γ), (C, δ)`; any precompile
error yields `false`.  The result carries the full list of precompile
calls issued. -/
def g16_verify_proof_with_key (o : Oracle) (vk : G16VerificationKey)
    (a0 a1 b00 b01 b10 b11 c0 c1 : Nat) (public_signals : List Nat) :
    Bool × List OCall :=
  if public_signals.length + 1 ≠ vk.ic.length then (false, [])
  else if public_signals.any (fun x => decide (R_MOD ≤ x)) then (false, [])
  else
    match vk.ic with
    | [] => (false, [])  -- unreachable: the length check forces `ic ≠ []`
    | ic0 :: icrest =>
      match g16_vkx_go o ic0 (public_signals.zip icrest) with
      | (none, l1) => (false, l1)
      | (some vkx, l1) =>
        let proof_a : G1Point := ⟨a0, a1⟩
        let proof_b : G2Point := ⟨b00, b01, b10, b11⟩
        let proof_c : G1Point := ⟨c0, c1⟩
        match g16_pairing_check o (g16_negate proof_a) proof_b vk.alpha1
            vk.beta2 vkx vk.gamma2 proof_c vk.delta2 with
        | (some ok, l2) => (ok, l1 ++ l2)
        | (none, l2) => (false, l1 ++ l2)

/-! ## common/plonk.rs (`PlonkVerifier`) with common/types.rs

This is the PLONK path that `sp1/plonk/verifier.rs` actually invokes
(`use crate::common::PlonkVerifier`).  Its `wrapping_*` arithmetic and
simplified sub-steps are modelled exactly as written. -/

/-- Source `common/types.rs` `PlonkProof`; the fixed-size arrays are
flattened into indexed fields (`wire_commitments0` is
`wire_commitments[0]`, and so on). -/
structure PlonkProof where
  wire_commitments0 : G1Point
  wire_commitments1 : G1Point
  wire_commitments2 : G1Point
  permutation_commitment : G1Point
  quotient_commitments0 : G1Point
  quotient_commitments1 : G1Point
  quotient_commitments2 : G1Point
  wire_evaluations0 : Nat
  wire_evaluations1 : Nat
  wire_evaluations2 : Nat
  permutation_evaluations0 : Nat
  permutation_evaluations1 : Nat
  permutation_evaluations2 : Nat
  quotient_evaluation : Nat
  opening_proof : G1Point
  opening_proof_at_omega : G1Point
deriving DecidableEq, Repr

/-- Source `common/types.rs` `PlonkVerificationKey`, arrays flattened. -/
structure PlonkVerificationKey where
  domain_size : Nat
  num_public_inputs : Nat
  selector_commitments0 : G1Point
  selector_commitments1 : G1Point
  selector_commitments2 : G1Point
  selector_commitments3 : G1Point
  selector_commitments4 : G1Point
  permutation_commitments0 : G1Point
  permutation_commitments1 : G1Point
  permutation_commitments2 : G1Point
  kzg_g2 : G2Point
  omega : Nat
  coset_shift : Nat
deriving DecidableEq, Repr

/-- Source `common/types.rs` `PlonkChallenges`. -/
structure PlonkChallenges where
  beta : Nat
  gamma : Nat
  alpha : Nat
  zeta : Nat
  v : Nat
deriving DecidableEq, Repr

/-- Source `PlonkVerifier::hash_to_field`: the weighted wrapping sum
`Σ elemᵢ · (i+1)` reduced mod `R` at the end. -/
def pv_hash_to_field (elements : List Nat) : Nat :=
  (elements.enum.foldl (fun res ie => wadd res (wmul ie.2 (ie.1 + 1))) 0) % R_MOD

/-- Loop of source `PlonkVerifier::pow_mod` (modulus fixed to `R`,
wrapping multiplications reduced mod `R` each step); the exponent is a
`u64`, so 64 iterations of fuel always suffice. -/
def pv_pow_mod_go : Nat → Nat → Nat → Nat → Nat
  | 0, _, _, res => res
  | fuel + 1, base, e, res =>
    if e = 0 then res
    else
      pv_pow_mod_go fuel (wmul base base % R_MOD) (e / 2)
        (if e % 2 = 1 then wmul res base % R_MOD else res)

/-- Source `PlonkVerifier::pow_mod`. -/
def pv_pow_mod (base exp : Nat) : Nat :=
  if exp = 0 then 1 else pv_pow_mod_go 64 (base % R_MOD) exp 1

/-- Source `PlonkVerifier::mod_inverse`: errs on zero, otherwise Fermat
exponentiation — with the exponent truncated to the LOW 64-BIT LIMB of
`R - 2` (`R.wrapping_sub(2).as_limbs()[0]`), exactly as written. -/
def pv_mod_inverse (a : Nat) : Option Nat :=
  if a = 0 then none else some (pv_pow_mod a ((R_MOD - 2) % 2 ^ 64))

/-- Source `PlonkVerifier::compute_challenges` (always `Ok` in the
source; modelled total). -/
def pv_compute_challenges (proof : PlonkProof) : PlonkChallenges :=
  let beta := pv_hash_to_field
    [proof.wire_commitments0.x, proof.wire_commitments0.y,
     proof.wire_commitments1.x, proof.wire_commitments1.y]
  let gamma := pv_hash_to_field
    [beta, proof.wire_commitments2.x, proof.wire_commitments2.y]
  let alpha := pv_hash_to_field
    [gamma, proof.permutation_commitment.x, proof.permutation_commitment.y]
  let zeta := pv_hash_to_field
    [alpha, proof.quotient_commitments0.x, proof.quotient_commitments0.y,
     proof.quotient_commitments1.x, proof.quotient_commitments1.y,
     proof.quotient_commitments2.x, proof.quotient_commitments2.y]
  let v := pv_hash_to_field
    [zeta, proof.wire_evaluations0, proof.wire_evaluations1,
     proof.wire_evaluations2, proof.permutation_evaluations0,
     proof.permutation_evaluations1, proof.permutation_evaluations2,
     proof.quotient_evaluation]
  ⟨beta, gamma, alpha, zeta, v⟩

/-- Source `PlonkVerifier::compute_lagrange_basis` (the trailing `omega`
argument of the source is unused by its body and omitted). -/
def pv_compute_lagrange_basis (x omega_i domain_size : Nat) : Option Nat :=
  let x_n := pv_pow_mod x domain_size
  let numerator := wmul omega_i (wsub x_n 1)
  let denominator := wmul domain_size (wsub x omega_i)
  if denominator = 0 then none
  else
    match pv_mod_inverse denominator with
    | none => none
    | some dinv => some (wmul numerator dinv % R_MOD)

/-- Loop of source `PlonkVerifier::compute_public_input_evaluation`:
threads the wrapping sum and the running `omega` power. -/
def pv_pi_go (zeta domain_size omega : Nat) :
    Nat → Nat → List Nat → Option Nat
  | result, _, [] => some (result % R_MOD)
  | result, omega_power, input :: rest =>
    match pv_compute_lagrange_basis zeta omega_power domain_size with
    | none => none
    | some lagrange =>
      pv_pi_go zeta domain_size omega (wadd result (wmul input lagrange))
        (wmul omega_power omega % R_MOD) rest

/-- Source `PlonkVerifier::compute_public_input_evaluation`. -/
def pv_compute_public_input_evaluation (public_inputs : List Nat)
    (zeta : Nat) (vk : PlonkVerificationKey) : Option Nat :=
  pv_pi_go zeta vk.domain_size vk.omega 0 1 public_inputs

/-- Source `PlonkVerifier::compute_gate_evaluation`:
`L·R - O` with wrapping ops, `% R`. -/
def pv_compute_gate_evaluation (proof : PlonkProof) : Nat :=
  wsub (wmul proof.wire_evaluations0 proof.wire_evaluations1)
    proof.wire_evaluations2 % R_MOD

/-- Source `PlonkVerifier::compute_permutation_evaluation`. -/
def pv_compute_permutation_evaluation (proof : PlonkProof)
    (ch : PlonkChallenges) : Option Nat :=
  let numerator := wadd (wmul proof.permutation_evaluations0 ch.beta) ch.gamma
  let denominator :=
    wadd (wmul proof.permutation_evaluations1 ch.beta) ch.gamma
  if denominator = 0 then none
  else
    match pv_mod_inverse denominator with
    | none => none
    | some dinv => some (wmul numerator dinv % R_MOD)

/-- Source `PlonkVerifier::compute_quotient_evaluation`. -/
def pv_compute_quotient_evaluation (proof : PlonkProof)
    (ch : PlonkChallenges) (vk : PlonkVerificationKey)
    (public_inputs : List Nat) : Option Nat :=
  match pv_compute_public_input_evaluation public_inputs ch.zeta vk with
  | none => none
  | some pi_eval =>
    let gate_eval := pv_compute_gate_evaluation proof
    match pv_compute_permutation_evaluation proof ch with
    | none => none
    | some perm_eval =>
      let q1 := wadd gate_eval (wmul ch.alpha perm_eval)
      let q2 := wadd q1 (wmul (wmul ch.alpha ch.alpha) pi_eval)
      let zeta_n := pv_pow_mod ch.zeta vk.domain_size
      let vanishing := wsub zeta_n 1
      if vanishing = 0 then none
      else
        match pv_mod_inverse vanishing with
        | none => none
        | some vinv => some (wmul q2 vinv % R_MOD)

/-- Source `PlonkVerifier::ec_add` (EcAdd precompile, correct calldata
`x1 ‖ y1 ‖ x2 ‖ y2`). -/
def pv_ec_add (o : Oracle) (p1 p2 : G1Point) : Option G1Point × List OCall :=
  let cd := beBytes 32 p1.x ++ beBytes 32 p1.y ++ beBytes 32 p2.x ++
    beBytes 32 p2.y
  (match o 6 cd with
   | some ret =>
     if 64 ≤ ret.length then
       some ⟨fromBeBytes (ret.take 32), fromBeBytes ((ret.drop 32).take 32)⟩
     else none
   | none => none, [⟨6, cd⟩])

/-- Source `PlonkVerifier::ec_mul` (EcMul precompile). -/
def pv_ec_mul (o : Oracle) (p : G1Point) (s : Nat) :
    Option G1Point × List OCall :=
  let cd := beBytes 32 p.x ++ beBytes 32 p.y ++ beBytes 32 s
  (match o 7 cd with
   | some ret =>
     if 64 ≤ ret.length then
       some ⟨fromBeBytes (ret.take 32), fromBeBytes ((ret.drop 32).take 32)⟩
     else none
   | none => none, [⟨7, cd⟩])

/-- Source `PlonkVerifier::negate_g1` (note the `Q.wrapping_sub(y)`). -/
def pv_negate_g1 (p : G1Point) : G1Point :=
  if p.x = 0 ∧ p.y = 0 then p else ⟨p.x, wsub Q_MOD p.y⟩

/-- Source `PlonkVerifier::ec_sub`: `p1 + (-p2)`. -/
def pv_ec_sub (o : Oracle) (p1 p2 : G1Point) : Option G1Point × List OCall :=
  pv_ec_add o p1 (pv_negate_g1 p2)

/-- Source `PlonkVerifier::get_g1_generator`. -/
def pv_g1_generator : G1Point := ⟨1, 2⟩

/-- Source `PlonkVerifier::ec_mul_g2` — the "simplified implementation"
that returns the zero point for a zero scalar and the INPUT POINT
UNCHANGED otherwise (no G2 arithmetic is performed). -/
def pv_ec_mul_g2 (p : G2Point) (s : Nat) : G2Point :=
  if s = 0 then ⟨0, 0, 0, 0⟩ else p

/-- Source `PlonkVerifier::ec_sub_g2` — the "simplified implementation"
that returns its first argument unchanged. -/
def pv_ec_sub_g2 (p1 _p2 : G2Point) : G2Point := p1

/-- The two-pair EcPairing calldata of `PlonkVerifier::pairing_check`:
for each pair, `g1.x ‖ g1.y ‖ g2.x[0] ‖ g2.x[1] ‖ g2.y[0] ‖ g2.y[1]`
(c0 component first, as this file writes it). -/
def pv_pairing_calldata (g1a : G1Point) (g2a : G2Point) (g1b : G1Point)
    (g2b : G2Point) : List Nat :=
  beBytes 32 g1a.x ++ beBytes 32 g1a.y ++ beBytes 32 g2a.x0 ++
    beBytes 32 g2a.x1 ++ beBytes 32 g2a.y0 ++ beBytes 32 g2a.y1 ++
  beBytes 32 g1b.x ++ beBytes 32 g1b.y ++ beBytes 32 g2b.x0 ++
    beBytes 32 g2b.x1 ++ beBytes 32 g2b.y0 ++ beBytes 32 g2b.y1

/-- Source `PlonkVerifier::pairing_check`: one EcPairing call; `true` iff
the 32-byte return word is nonzero; `.unwrap_or(false)` maps a failed
call (or a short return, which the source would panic slicing) to
`false`. -/
def pv_pairing_check (o : Oracle) (g1a : G1Point) (g2a : G2Point)
    (g1b : G1Point) (g2b : G2Point) : Bool × List OCall :=
  let cd := pv_pairing_calldata g1a g2a g1b g2b
  (match o 8 cd with
   | some ret =>
     if 32 ≤ ret.length then fromBeBytes (ret.take 32) != 0 else false
   | none => false, [⟨8, cd⟩])

/-- Source `PlonkVerifier::fold_quotient_commitments`:
`H₀ + ζ^{n+2}·H₁ + ζ^{2(n+2)}·H₂`. -/
def pv_fold_quotient_commitments (o : Oracle) (c0 c1 c2 : G1Point)
    (zeta domain_size : Nat) : Option G1Point × List OCall :=
  let zeta_n_plus_2 := pv_pow_mod zeta (domain_size + 2)
  let zeta_2n_plus_4 := pv_pow_mod zeta_n_plus_2 2
  match pv_ec_mul o c1 zeta_n_plus_2 with
  | (none, l1) => (none, l1)
  | (some h1s, l1) =>
    match pv_ec_mul o c2 zeta_2n_plus_4 with
    | (none, l2) => (none, l1 ++ l2)
    | (some h2s, l2) =>
      match pv_ec_add o c0 h1s with
      | (none, l3) => (none, l1 ++ l2 ++ l3)
      | (some temp, l3) =>
        match pv_ec_add o temp h2s with
        | (r, l4) => (r, l1 ++ l2 ++ l3 ++ l4)

/-- Source `PlonkVerifier::compute_gate_contribution`:
`l·[Q_L] + r·[Q_R] + (l·r)·[Q_M] + o·[Q_O] + [Q_K]`. -/
def pv_compute_gate_contribution (o : Oracle) (proof : PlonkProof)
    (vk : PlonkVerificationKey) : Option G1Point × List OCall :=
  let l_eval := proof.wire_evaluations0
  let r_eval := proof.wire_evaluations1
  let o_eval := proof.wire_evaluations2
  match pv_ec_mul o vk.selector_commitments0 l_eval with
  | (none, l1) => (none, l1)
  | (some ql, l1) =>
    match pv_ec_mul o vk.selector_commitments1 r_eval with
    | (none, l2) => (none, l1 ++ l2)
    | (some qr, l2) =>
      match pv_ec_mul o vk.selector_commitments2 (wmul l_eval r_eval % R_MOD) with
      | (none, l3) => (none, l1 ++ l2 ++ l3)
      | (some qm, l3) =>
        match pv_ec_mul o vk.selector_commitments3 o_eval with
        | (none, l4) => (none, l1 ++ l2 ++ l3 ++ l4)
        | (some qo, l4) =>
          let qk := vk.selector_commitments4
          match pv_ec_add o ql qr with
          | (none, l5) => (none, l1 ++ l2 ++ l3 ++ l4 ++ l5)
          | (some t1, l5) =>
            match pv_ec_add o t1 qm with
            | (none, l6) => (none, l1 ++ l2 ++ l3 ++ l4 ++ l5 ++ l6)
            | (some t2, l6) =>
              match pv_ec_add o t2 qo with
              | (none, l7) => (none, l1 ++ l2 ++ l3 ++ l4 ++ l5 ++ l6 ++ l7)
              | (some t3, l7) =>
                match pv_ec_add o t3 qk with
                | (r, l8) => (r, l1 ++ l2 ++ l3 ++ l4 ++ l5 ++ l6 ++ l7 ++ l8)

/-- Source `PlonkVerifier::compute_permutation_contribution`:
`(α·z_ω mod R)·[S_σ1]`. -/
def pv_compute_permutation_contribution (o : Oracle) (proof : PlonkProof)
    (ch : PlonkChallenges) (vk : PlonkVerificationKey) :
    Option G1Point × List OCall :=
  pv_ec_mul o vk.permutation_commitments0
    (wmul ch.alpha proof.permutation_evaluations0 % R_MOD)

/-- Source `PlonkVerifier::compute_linearization_commitment`. -/
def pv_compute_linearization_commitment (o : Oracle) (proof : PlonkProof)
    (ch : PlonkChallenges) (vk : PlonkVerificationKey) :
    Option G1Point × List OCall :=
  match pv_fold_quotient_commitments o proof.quotient_commitments0
      proof.quotient_commitments1 proof.quotient_commitments2 ch.zeta
      vk.domain_size with
  | (none, l1) => (none, l1)
  | (some fq, l1) =>
    match pv_compute_gate_contribution o proof vk with
    | (none, l2) => (none, l1 ++ l2)
    | (some gate, l2) =>
      match pv_ec_add o fq gate with
      | (none, l3) => (none, l1 ++ l2 ++ l3)
      | (some r1, l3) =>
        match pv_compute_permutation_contribution o proof ch vk with
        | (none, l4) => (none, l1 ++ l2 ++ l3 ++ l4)
        | (some perm, l4) =>
          match pv_ec_add o r1 perm with
          | (r, l5) => (r, l1 ++ l2 ++ l3 ++ l4 ++ l5)

/-- Source `PlonkVerifier::verify_kzg_opening` — the "simplified KZG
verification": it performs NO pairing and merely checks that the opening
commitment is not the zero point (the `point`, `evaluation` and `g2`
arguments are ignored by the body). -/
def pv_verify_kzg_opening (pf : G1Point) (_point _evaluation : Nat)
    (_g2 : G2Point) : Bool :=
  (pf.x != 0) || (pf.y != 0)

/-- Source `PlonkVerifier::batch_verify_openings`: linearization
commitment, combine with `v · W_ω` (the source calls `.unwrap()` on that
`ec_mul` — its panic, like every error, is modelled as rejection), then
the pairing-free `verify_kzg_opening` above. -/
def pv_batch_verify_openings (o : Oracle) (proof : PlonkProof)
    (ch : PlonkChallenges) (vk : PlonkVerificationKey) :
    Bool × List OCall :=
  match pv_compute_linearization_commitment o proof ch vk with
  | (none, l1) => (false, l1)
  | (some lin, l1) =>
    match pv_ec_mul o proof.opening_proof_at_omega ch.v with
    | (none, l2) => (false, l1 ++ l2)
    | (some inner, l2) =>
      match pv_ec_add o lin inner with
      | (none, l3) => (false, l1 ++ l2 ++ l3)
      | (some combined_commitment, l3) =>
        let combined_eval :=
          wadd proof.quotient_evaluation
            (wmul ch.v proof.permutation_evaluations0) % R_MOD
        let zeta_omega := wmul ch.zeta vk.omega % R_MOD
        let combined_point := wadd ch.zeta (wmul ch.v zeta_omega) % R_MOD
        (pv_verify_kzg_opening combined_commitment combined_point
          combined_eval vk.kzg_g2, l1 ++ l2 ++ l3)

/-- Source `PlonkVerifier::batch_verify_commitments`: the only pairing in
the whole path.  Note the pair list it builds:
`(W_ζ - y·G₁, kzg_g2)` and `(W_ζ, ec_sub_g2(ec_mul_g2(kzg_g2, ζ), kzg_g2))`
— both G1 slots derive from `opening_proof`, and the degenerate G2
arithmetic leaves the second G2 slot equal to `kzg_g2` whenever
`ζ ≠ 0`. -/
def pv_batch_verify_commitments (o : Oracle) (proof : PlonkProof)
    (ch : PlonkChallenges) (vk : PlonkVerificationKey) :
    Bool × List OCall :=
  match pv_ec_mul o pv_g1_generator proof.quotient_evaluation with
  | (none, l1) => (false, l1)
  | (some y_g1, l1) =>
    match pv_ec_sub o proof.opening_proof y_g1 with
    | (none, l2) => (false, l1 ++ l2)
    | (some f_minus_y, l2) =>
      let x_g2 := pv_ec_mul_g2 vk.kzg_g2 ch.zeta
      let x_g2_minus_g2 := pv_ec_sub_g2 x_g2 vk.kzg_g2
      match pv_pairing_check o f_minus_y vk.kzg_g2 proof.opening_proof
          x_g2_minus_g2 with
      | (ok, l3) => (ok, l1 ++ l2 ++ l3)

/-- Source `PlonkVerifier::verify_proof_with_key`: input validation,
Fiat-Shamir challenges, quotient-evaluation recomputation and comparison,
`verify_opening_proofs` (= `batch_verify_openings`), then
`batch_verify_commitments`. -/
def pv_verify_proof_with_key (o : Oracle) (vk : PlonkVerificationKey)
    (proof : PlonkProof) (public_inputs : List Nat) : Bool × List OCall :=
  if public_inputs.length ≠ vk.num_public_inputs then (false, [])
  else if public_inputs.any (fun x => decide (R_MOD ≤ x)) then (false, [])
  else
    let challenges := pv_compute_challenges proof
    match pv_compute_quotient_evaluation proof challenges vk public_inputs with
    | none => (false, [])
    | some quotient_eval =>
      if quotient_eval ≠ proof.quotient_evaluation then (false, [])
      else
        match pv_batch_verify_openings o proof challenges vk with
        | (false, l1) => (false, l1)
        | (true, l1) =>
          match pv_batch_verify_commitments o proof challenges vk with
          | (ok, l2) => (ok, l1 ++ l2)

/-! ## sp1/plonk/verifier.rs and sp1/verifier.rs (seal dispatchers)

ABI decoding of the seal payload is an external collaborator (spec
section 1 puts wire-format decoding out of scope), so it enters as an
abstract `dec` parameter; likewise SHA-256 of the `sha2` crate enters as
`sha`.  `crypto::get_verification_key` / `validate_verification_key` and
the `config` constants of the SP1 verifiers are not present under `src/`,
so the verification key, its validity flag, and the expected selector are
parameters. -/

/-- Modelled from the spec: the missing `sp1/plonk/config.rs`
`FIELD_MASK` constant.  Spec section 4.F: clear the top three bits of the
digest (`d[0] &= 0x1F`), i.e. keep the low 253 bits. -/
def FIELD_MASK : Nat := 2 ^ 253 - 1

/-- Source `sp1/plonk/types.rs` `hash_public_values`:
`(SHA256(public_values) & FIELD_MASK) % R`. -/
def sp1_plonk_hash_public_values (sha : List Nat → List Nat)
    (public_values : List Nat) : Nat :=
  (fromBeBytes (sha public_values) &&& FIELD_MASK) % R_MOD

/-- Source `Sp1PlonkPublicInputs::new` + `to_array`: the two-element
public-signal vector `[program_vkey, masked digest]` (the vkey is taken
as the full 32-byte big-endian integer, unreduced). -/
def sp1_plonk_public_signals (sha : List Nat → List Nat)
    (program_vkey public_values : List Nat) : List Nat :=
  [fromBeBytes program_vkey, sp1_plonk_hash_public_values sha public_values]

/-- Source `Sp1PlonkVerifier::verify_proof_internal`: length check,
selector check, ABI decode (abstract `dec`), public-signal construction,
verification-key validation, then `common::PlonkVerifier`'s
`verify_proof_with_key`; `none` models the ABI-encoded error returns. -/
def sp1_plonk_verify_proof (o : Oracle) (sha : List Nat → List Nat)
    (dec : List Nat → Option PlonkProof) (expected_selector : List Nat)
    (vk : PlonkVerificationKey) (vk_valid : Bool)
    (program_vkey public_values proof_bytes : List Nat) :
    Option Unit × List OCall :=
  if proof_bytes.length < 4 then (none, [])
  else if proof_bytes.take 4 ≠ expected_selector then (none, [])
  else
    match dec (proof_bytes.drop 4) with
    | none => (none, [])
    | some plonk_proof =>
      let public_signals := sp1_plonk_public_signals sha program_vkey
        public_values
      if !vk_valid then (none, [])
      else
        match pv_verify_proof_with_key o vk plonk_proof public_signals with
        | (true, l) => (some (), l)
        | (false, l) => (none, l)

/-- Source `sp1/groth16/types.rs` `hash_public_values`: clear the top
three bits of the FIRST BYTE of the SHA-256 digest (`hash[0] &= 0x1F`),
then reduce the big-endian value mod `R`. -/
def sp1_groth16_hash_public_values (sha : List Nat → List Nat)
    (public_values : List Nat) : Nat :=
  let h := sha public_values
  let hm := match h with
    | [] => []
    | b :: rest => (b &&& 0x1F) :: rest
  fromBeBytes hm % R_MOD

/-- Source `Sp1PublicInputs::new` + `to_array` of
`sp1/groth16/types.rs`. -/
def sp1_groth16_public_signals (sha : List Nat → List Nat)
    (program_vkey public_values : List Nat) : List Nat :=
  [fromBeBytes program_vkey, sp1_groth16_hash_public_values sha public_values]

/-- Source `Sp1Verifier::verify_proof_internal` (the SP1 Groth16
dispatcher): length and selector checks, ABI decode of the
`uint256[8]` seal payload (abstract `dec`), public-signal construction,
then `Groth16Verifier::verify_proof_with_key` on
`a = (p₀,p₁)`, `b = ((p₂,p₃),(p₄,p₅))`, `c = (p₆,p₇)`. -/
def sp1_groth16_verify_proof (o : Oracle) (sha : List Nat → List Nat)
    (dec : List Nat → Option (List Nat)) (expected_selector : List Nat)
    (vk : G16VerificationKey)
    (program_vkey public_values proof_bytes : List Nat) :
    Option Unit × List OCall :=
  if proof_bytes.length < 4 then (none, [])
  else if proof_bytes.take 4 ≠ expected_selector then (none, [])
  else
    match dec (proof_bytes.drop 4) with
    | none => (none, [])
    | some pr =>
      let public_signals := sp1_groth16_public_signals sha program_vkey
        public_values
      match g16_verify_proof_with_key o vk (pr.getD 0 0) (pr.getD 1 0)
          (pr.getD 2 0) (pr.getD 3 0) (pr.getD 4 0) (pr.getD 5 0)
          (pr.getD 6 0) (pr.getD 7 0) public_signals with
      | (true, l) => (some (), l)
      | (false, l) => (none, l)

/-! ## Definitions taken from the specification's words

These are the spec-side counterparts used to compare the source
behaviour against the claims (refinement comparisons); each is written
from the spec text, not from the source. -/

/-- Modelled from the spec (section 9, "Precision of modular
arithmetic"): `mod_mul(a,b,m) = ((a mod m) · (b mod m)) mod m` with an
exact (512-bit-wide) intermediate product. -/
def spec_mod_mul (a b m : Nat) : Nat := ((a % m) * (b % m)) % m

/-- Modelled from the spec (sections 4.A and 6): the canonical EcAdd
calldata layout `x₁ ‖ y₁ ‖ x₂ ‖ y₂`, 128 bytes. -/
def spec_ec_add_calldata (p q : G1Point) : List Nat :=
  beBytes 32 p.x ++ beBytes 32 p.y ++ beBytes 32 q.x ++ beBytes 32 q.y

/-- Modelled from the spec (sections 4.A and 6): the canonical EcMul
calldata layout `x ‖ y ‖ s`, 96 bytes. -/
def spec_ec_mul_calldata (p : G1Point) (s : Nat) : List Nat :=
  beBytes 32 p.x ++ beBytes 32 p.y ++ beBytes 32 s

/-- Modelled from the spec (section 4.E step 8): the folded opening
witness `Q = MSM(proofs, rnd)` with `rnd = [1, u]`, evaluated with the
source's `ec::msm` oracle semantics (infinity fallback if the oracle
fails). -/
def spec_step8_Q (o : Oracle) (w_zeta w_zeta_omega : G1Point) (u : Nat) :
    G1Point :=
  match msm o [w_zeta, w_zeta_omega] [1, u] with
  | (some q, _) => q
  | (none, _) => ⟨0, 0⟩

/-- Modelled from the spec (section 4.E step 8): the final pair list
`[(D', g₂[0]), (−Q, g₂[1])]` of the two-pairing equation
`e(D', g₂[0]) · e(−Q, g₂[1]) = 1`. -/
def spec_step8_pairs (dP q : G1Point) (g2_0 g2_1 : G2Point) :
    List (G1Point × G2Point) :=
  [(dP, g2_0), (g1_neg q, g2_1)]

/-- Modelled from the spec (section 4.E step 8): the EcPairing calldata
for the spec's final pair list, serialized pairwise as the source's
`ec::pairing` would. -/
def spec_step8_calldata (dP q : G1Point) (g2_0 g2_1 : G2Point) : List Nat :=
  ((spec_step8_pairs dP q g2_0 g2_1).map
    (fun pq => pairing_pair_bytes pq.1 pq.2)).flatten

/-! ## Concrete instances used by the counterexamples and witnesses -/

/-- A deterministic oracle: EcAdd answers the point `(5, 7)`, EcMul the
point `(9, 11)`, EcPairing the word `1`, anything else fails. -/
def o1 : Oracle := fun addr _cd =>
  if addr = 6 then some (beBytes 32 5 ++ beBytes 32 7)
  else if addr = 7 then some (beBytes 32 9 ++ beBytes 32 11)
  else if addr = 8 then some (beBytes 32 1)
  else none

/-- An oracle whose every answer is the all-zero 32-byte word (in
particular the EcPairing precompile reports "pairing product not the
identity"). -/
def o2 : Oracle := fun _addr _cd => some (List.replicate 32 0)

/-- The always-failing oracle. -/
def oF : Oracle := fun _addr _cd => none

/-- An oracle answering every EC operation with a 64-byte zero buffer
(the zero point) and the pairing precompile with the zero word. -/
def o3 : Oracle := fun addr _cd =>
  if addr = 8 then some (List.replicate 32 0) else some (List.replicate 64 0)

/-- A concrete PLONK verification key (two public inputs, domain size
four). -/
def vk1 : PlonkVerificationKey :=
  { domain_size := 4, num_public_inputs := 2
    selector_commitments0 := ⟨31, 32⟩, selector_commitments1 := ⟨33, 34⟩
    selector_commitments2 := ⟨35, 36⟩, selector_commitments3 := ⟨37, 38⟩
    selector_commitments4 := ⟨39, 40⟩
    permutation_commitments0 := ⟨41, 42⟩
    permutation_commitments1 := ⟨43, 44⟩
    permutation_commitments2 := ⟨45, 46⟩
    kzg_g2 := ⟨17, 18, 19, 20⟩, omega := 21, coset_shift := 22 }

/-- The quotient evaluation that `pv_compute_quotient_evaluation`
produces for `proof1` under `vk1` with public inputs `[0, 0]` (computed
by evaluation; `proof1` carries it so that the equality gate passes). -/
def qe1 : Nat :=
  4875340677480539657467225728492358252524794870194862726473962240998177244379

/-- A concrete PLONK proof accepted by `pv_verify_proof_with_key` under
`o1`, `vk1` and public inputs `[0, 0]`. -/
def proof1 : PlonkProof :=
  { wire_commitments0 := ⟨1, 2⟩, wire_commitments1 := ⟨3, 4⟩
    wire_commitments2 := ⟨5, 6⟩, permutation_commitment := ⟨7, 8⟩
    quotient_commitments0 := ⟨9, 10⟩, quotient_commitments1 := ⟨11, 12⟩
    quotient_commitments2 := ⟨13, 14⟩
    wire_evaluations0 := 15, wire_evaluations1 := 16, wire_evaluations2 := 17
    permutation_evaluations0 := 18, permutation_evaluations1 := 19
    permutation_evaluations2 := 20
    quotient_evaluation := qe1
    opening_proof := ⟨22, 23⟩, opening_proof_at_omega := ⟨24, 25⟩ }

/-- The constant-zero hash stand-in used where a concrete SHA-256
function instance is needed. -/
def sha0 : List Nat → List Nat := fun _ => List.replicate 32 0

/-- The trivial ABI decoder yielding `proof1`. -/
def dec1 : List Nat → Option PlonkProof := fun _ => some proof1

/-- The concrete SP1 PLONK dispatcher run built from the pieces above:
it returns `Ok` (the proof is accepted). -/
def c1run : Option Unit × List OCall :=
  sp1_plonk_verify_proof o1 sha0 dec1 [0, 0, 0, 0] vk1 true
    (List.replicate 32 0) [] [0, 0, 0, 0]

/-- The spec-side `Q` of section 4.E step 8 for the `c1run` opening
proofs, with `u` the run's fresh batching challenge (the source's `v`). -/
def q1spec : G1Point :=
  spec_step8_Q o1 proof1.opening_proof proof1.opening_proof_at_omega
    (pv_compute_challenges proof1).v

/-- A concrete Groth16 verification key with a single IC entry (no
public signals). -/
def vkg : G16VerificationKey :=
  { alpha1 := ⟨1, 2⟩, beta2 := ⟨3, 4, 5, 6⟩, gamma2 := ⟨7, 8, 9, 10⟩
    delta2 := ⟨11, 12, 13, 14⟩, ic := [⟨15, 16⟩] }

/-- A concrete Groth16 verification key with three IC entries (for the
two SP1 public signals). -/
def vkg3 : G16VerificationKey :=
  { alpha1 := ⟨1, 2⟩, beta2 := ⟨3, 4, 5, 6⟩, gamma2 := ⟨7, 8, 9, 10⟩
    delta2 := ⟨11, 12, 13, 14⟩, ic := [⟨15, 16⟩, ⟨26, 27⟩, ⟨28, 29⟩] }

/-- The trivial ABI decoder for the SP1 Groth16 `uint256[8]` payload. -/
def dec8 : List Nat → Option (List Nat) :=
  fun _ => some [17, 18, 3, 4, 5, 6, 19, 20]

/-- The concrete SP1 Groth16 dispatcher run (oracle `o3`). -/
def c4run : Option Unit × List OCall :=
  sp1_groth16_verify_proof o3 sha0 dec8 [0, 0, 0, 0] vkg3
    (List.replicate 32 0) [] [0, 0, 0, 0]

/-- A fresh two-slot transcript. -/
def t7 : Transcript := Transcript.new ["gamma", "beta"]

/-- The transcript state after computing the `gamma` slot of `t7` under
`sha0`. -/
def t7a : Transcript :=
  { ordered :=
      [{ position := 0, bindings := [], value := List.replicate 32 0,
         computed := true, id := "gamma" },
       { position := 1, bindings := [], value := List.replicate 32 0,
         computed := false, id := "beta" }]
    last_pos := 0 }

/-! ## Helper lemmas -/

theorem leBytes_length (n : Nat) : ∀ x, (leBytes n x).length = n := by
  induction n with
  | zero => intro x; rfl
  | succ n ih => intro x; simp [leBytes, ih]

theorem beBytes_length (n x : Nat) : (beBytes n x).length = n := by
  simp [beBytes, leBytes_length]

theorem pairing_pair_bytes_length (g1 : G1Point) (g2 : G2Point) :
    (pairing_pair_bytes g1 g2).length = 192 := by
  simp [pairing_pair_bytes, beBytes_length]

/-- The bytes at offsets `[192, 256)` of the spec's step-8 calldata are
the big-endian coordinates of `−Q`, whatever `D'` and the two G2
elements are. -/
theorem spec_step8_calldata_slice (dP q : G1Point) (g2a g2b : G2Point) :
    ((spec_step8_calldata dP q g2a g2b).drop 192).take 64 =
      beBytes 32 (g1_neg q).x ++ beBytes 32 (g1_neg q).y := by
  have h1 : spec_step8_calldata dP q g2a g2b =
      pairing_pair_bytes dP g2a ++
        (pairing_pair_bytes (g1_neg q) g2b ++ []) := by
    simp [spec_step8_calldata, spec_step8_pairs]
  rw [h1]
  have h2 : (192 : Nat) = (pairing_pair_bytes dP g2a).length :=
    (pairing_pair_bytes_length dP g2a).symm
  rw [h2, List.drop_left]
  have h3 : pairing_pair_bytes (g1_neg q) g2b ++ [] =
      (beBytes 32 (g1_neg q).x ++ beBytes 32 (g1_neg q).y) ++
        (beBytes 32 g2b.x0 ++ beBytes 32 g2b.x1 ++ beBytes 32 g2b.y0 ++
          beBytes 32 g2b.y1) := by
    simp [pairing_pair_bytes]
  rw [h3]
  have h4 : (64 : Nat) =
      (beBytes 32 (g1_neg q).x ++ beBytes 32 (g1_neg q).y).length := by
    simp [beBytes_length]
  rw [h4, List.take_left]

/-! ## Claim theorems -/

/-- C5: the claim states `mod_mul(a, b, r) = ((a mod r)·(b mod r)) mod r`
with an exact 512-bit intermediate for all 256-bit `a`, `b`.  The source
computes `(a % m * b % m) % m` with the wrapping `U256` product, so the
intermediate `(a mod r)·b` wraps at `2 ^ 256`: at
`a = b = 2 ^ 200` the source returns `0` while the exact value is
nonzero.  This evaluates the embedded source function at the failing
input and compares it with the spec-side exact function. -/
theorem c5_mod_mul_wraps_at_2_200 :
    mod_mul (2 ^ 200) (2 ^ 200) R_MOD = 0 ∧
    spec_mod_mul (2 ^ 200) (2 ^ 200) R_MOD ≠ 0 := by
  constructor
  · decide
  · decide

set_option maxRecDepth 100000 in
set_option maxHeartbeats 2000000 in
/-- C6: the claim states that `batch_invert` of a vector of nonzero
residues succeeds with the componentwise modular inverse, and fails
whenever some entry is `≡ 0 mod r`.  Both parts fail on the source: for
`v = [2]` it returns `some [0]` (and `0·2 mod r = 0 ≠ 1`), and for
`v = [2 ^ 250, r]` — whose second entry is `≡ 0 mod r` — it succeeds
with `some [0, 0]` because the wrapping `mod_mul` corrupts the total
product.  This evaluates the embedded source function at both failing
inputs. -/
theorem c6_batch_invert_fails_both_ways :
    batch_invert [2] = some [0] ∧ (0 * 2) % R_MOD ≠ 1 ∧
    R_MOD % R_MOD = 0 ∧ batch_invert [2 ^ 250, R_MOD] = some [0, 0] := by
  refine ⟨by decide, by decide, by decide, by decide⟩

/-- C3: the claim states `ec_add` sends the 128-byte concatenation
`p.x ‖ p.y ‖ q.x ‖ q.y` and `ec_mul` the 96-byte `p.x ‖ p.y ‖ s`.  The
source's reversed `copy_from_slice` calls never write the calldata
buffer, so both functions send all-zero buffers: at `p = (1,2)`,
`q = (3,4)`, `s = 5` the issued calldata is all zeroes and differs from
the canonical layout the claim (and spec) require. -/
theorem c3_ec_calldata_is_all_zero :
    (ec_add o1 ⟨1, 2⟩ ⟨3, 4⟩).2 = [⟨6, List.replicate 128 0⟩] ∧
    (ec_mul o1 ⟨1, 2⟩ 5).2 = [⟨7, List.replicate 96 0⟩] ∧
    spec_ec_add_calldata ⟨1, 2⟩ ⟨3, 4⟩ ≠ List.replicate 128 0 ∧
    spec_ec_mul_calldata ⟨1, 2⟩ 5 ≠ List.replicate 96 0 := by
  refine ⟨rfl, rfl, by decide, by decide⟩

/-- C2: the claim states the four-pair check returns `true` iff the
precompile output is nonzero, and that a zero result causes rejection.
The source computes `!ret[31] != 0` — the BITWISE complement of the last
byte — so an all-zero 32-byte pairing output (pairing product not the
identity) yields `!0 = 0xFF ≠ 0`, i.e. `true`: under the oracle `o2`
whose every answer is the zero word, the engine ACCEPTS the proof.  This
evaluates the embedded engine at the failing input. -/
theorem c2_zero_pairing_output_accepted :
    (g16_verify_proof_with_key o2 vkg 17 18 3 4 5 6 19 20 []).1 = true ∧
    (∀ a d, o2 a d = some (List.replicate 32 0)) ∧
    fromBeBytes (List.replicate 32 0) = 0 := by
  refine ⟨by decide, fun a d => rfl, by decide⟩

set_option maxRecDepth 100000 in
set_option maxHeartbeats 2000000 in
/-- C7 counterexample: the claim states `compute(name)` succeeds ONLY
when `name` is the immediate successor of the last computed slot, and
that each successful compute advances `last_pos`.  But the source returns
the cached value for an already-computed slot: after computing `gamma`
(state `t7a`, `last_pos = 0`), calling `compute "gamma"` again SUCCEEDS
even though slot 0 is not the successor slot 1, and `last_pos` does not
advance. -/
theorem c7_claim_counterexample :
    Transcript.compute sha0 t7 "gamma" = some (List.replicate 32 0, t7a) ∧
    Transcript.compute sha0 t7a "gamma" = some (List.replicate 32 0, t7a) ∧
    t7a.idx_of "gamma" = some 0 ∧ t7a.last_pos + 1 ≠ 0 := by
  refine ⟨by decide, by decide, by decide, by decide⟩

/-- C10 counterexample: the claim states no core operation silently
succeeds on a precompile failure, in particular that `sha256` never
returns a digest value when the Sha256 precompile call fails.  The
source's `.unwrap_or([0u8; 32])` returns the all-zero digest under the
always-failing oracle. -/
theorem c10_claim_counterexample :
    oF 2 [1, 2, 3] = none ∧
    sha2evm_sha256 oF [1, 2, 3] = List.replicate 32 0 := by
  exact ⟨rfl, rfl⟩

set_option maxRecDepth 100000 in
set_option maxHeartbeats 2000000 in
/-- C9: `ReceiptClaim.ok(image_id, journal_digest).digest()` equals the
tagged SHA-256 struct hash
`SHA256( SHA256("risc0.ReceiptClaim") ‖ input ‖ pre_state ‖ post_state ‖
output ‖ be32(system<<24) ‖ be32(user<<24) ‖ be16(4<<8) )` with
`input = 0`, `pre_state = image_id`,
`post_state = SYSTEM_STATE_ZERO_DIGEST`, exit code `(Halted, 0)` and
`output = Output(journal_digest, 0).digest()`; and it is deterministic in
its two inputs. -/
theorem c9_receipt_claim_digest_formula :
    (∀ (sha : List Nat → List Nat) (image_id journal_digest : List Nat),
      ReceiptClaim.digest sha (ReceiptClaim.ok sha image_id journal_digest) =
        sha (sha RECEIPT_CLAIM_TAG ++ List.replicate 32 0 ++ image_id ++
          SYSTEM_STATE_ZERO_DIGEST ++
          Output.digest sha journal_digest (List.replicate 32 0) ++
          beBytes 4 ((0 <<< 24) % 2 ^ 32) ++ beBytes 4 ((0 <<< 24) % 2 ^ 32) ++
          beBytes 2 (4 <<< 8))) ∧
    (∀ (sha : List Nat → List Nat) (i1 j1 i2 j2 : List Nat), i1 = i2 →
      j1 = j2 →
      ReceiptClaim.digest sha (ReceiptClaim.ok sha i1 j1) =
        ReceiptClaim.digest sha (ReceiptClaim.ok sha i2 j2)) := by
  constructor
  · intro sha image_id journal_digest
    rfl
  · intro sha i1 j1 i2 j2 hi hj
    rw [hi, hj]

/-- C9 witness: the formula and determinism instantiated at concrete
32-byte inputs. -/
theorem c9_witness :
    ReceiptClaim.digest sha0
        (ReceiptClaim.ok sha0 (List.replicate 32 1) (List.replicate 32 2)) =
      sha0 (sha0 RECEIPT_CLAIM_TAG ++ List.replicate 32 0 ++
        List.replicate 32 1 ++ SYSTEM_STATE_ZERO_DIGEST ++
        Output.digest sha0 (List.replicate 32 2) (List.replicate 32 0) ++
        beBytes 4 ((0 <<< 24) % 2 ^ 32) ++ beBytes 4 ((0 <<< 24) % 2 ^ 32) ++
        beBytes 2 (4 <<< 8)) ∧
    ReceiptClaim.digest sha0
        (ReceiptClaim.ok sha0 (List.replicate 32 1) (List.replicate 32 2)) =
      ReceiptClaim.digest sha0
        (ReceiptClaim.ok sha0 (List.replicate 32 1) (List.replicate 32 2)) :=
  ⟨c9_receipt_claim_digest_formula.1 sha0 (List.replicate 32 1)
      (List.replicate 32 2),
    c9_receipt_claim_digest_formula.2 sha0 (List.replicate 32 1)
      (List.replicate 32 2) (List.replicate 32 1) (List.replicate 32 2) rfl
      rfl⟩

/-- C8: with an out-of-field public signal, both engines return `false`
with an EMPTY precompile-call trace; and the Groth16 engine with a
mismatched IC length also returns `false` with an empty trace (rejection
before any EC operation). -/
theorem c8_early_rejection_before_oracle :
    (∀ (o : Oracle) (vk : G16VerificationKey)
        (a0 a1 b00 b01 b10 b11 c0 c1 : Nat) (w : List Nat),
      (∃ x ∈ w, R_MOD ≤ x) →
      g16_verify_proof_with_key o vk a0 a1 b00 b01 b10 b11 c0 c1 w =
        (false, [])) ∧
    (∀ (o : Oracle) (vk : G16VerificationKey)
        (a0 a1 b00 b01 b10 b11 c0 c1 : Nat) (w : List Nat),
      w.length + 1 ≠ vk.ic.length →
      g16_verify_proof_with_key o vk a0 a1 b00 b01 b10 b11 c0 c1 w =
        (false, [])) ∧
    (∀ (o : Oracle) (vk : PlonkVerificationKey) (proof : PlonkProof)
        (w : List Nat),
      (∃ x ∈ w, R_MOD ≤ x) →
      pv_verify_proof_with_key o vk proof w = (false, [])) := by
  refine ⟨?_, ?_, ?_⟩
  · intro o vk a0 a1 b00 b01 b10 b11 c0 c1 w hw
    unfold g16_verify_proof_with_key
    by_cases hlen : w.length + 1 ≠ vk.ic.length
    · rw [if_pos hlen]
    · rw [if_neg hlen]
      have hany : w.any (fun x => decide (R_MOD ≤ x)) = true := by
        obtain ⟨x, hx, hge⟩ := hw
        exact List.any_eq_true.mpr ⟨x, hx, by simpa using hge⟩
      rw [if_pos hany]
  · intro o vk a0 a1 b00 b01 b10 b11 c0 c1 w hlen
    unfold g16_verify_proof_with_key
    rw [if_pos hlen]
  · intro o vk proof w hw
    unfold pv_verify_proof_with_key
    by_cases hlen : w.length ≠ vk.num_public_inputs
    · rw [if_pos hlen]
    · rw [if_neg hlen]
      have hany : w.any (fun x => decide (R_MOD ≤ x)) = true := by
        obtain ⟨x, hx, hge⟩ := hw
        exact List.any_eq_true.mpr ⟨x, hx, by simpa using hge⟩
      rw [if_pos hany]

/-- C8 witness: the three parts at concrete inputs (signal `= r`
exactly, and a two-signal vector against a one-entry IC list). -/
theorem c8_witness :
    g16_verify_proof_with_key oF vkg 1 2 3 4 5 6 7 8 [R_MOD] = (false, []) ∧
    g16_verify_proof_with_key oF vkg 1 2 3 4 5 6 7 8 [0, 0] = (false, []) ∧
    pv_verify_proof_with_key oF vk1 proof1 [R_MOD, 0] = (false, []) :=
  ⟨c8_early_rejection_before_oracle.1 oF vkg 1 2 3 4 5 6 7 8 [R_MOD]
      ⟨R_MOD, by decide, Nat.le_refl _⟩,
    c8_early_rejection_before_oracle.2.1 oF vkg 1 2 3 4 5 6 7 8 [0, 0]
      (by decide),
    c8_early_rejection_before_oracle.2.2 oF vk1 proof1 [R_MOD, 0]
      ⟨R_MOD, by decide, Nat.le_refl _⟩⟩

/-- Every call issued by the Groth16 `vk_x` loop targets EcAdd (6) or
EcMul (7), never the pairing precompile. -/
theorem g16_vkx_go_addrs (o : Oracle) :
    ∀ (ps : List (Nat × G1Point)) (acc : G1Point) (c : OCall),
      c ∈ (g16_vkx_go o acc ps).2 → c.addr = 6 ∨ c.addr = 7 := by
  intro ps
  induction ps with
  | nil => intro acc c hc; simp [g16_vkx_go] at hc
  | cons p rest ih =>
    intro acc c hc
    obtain ⟨sig, ic⟩ := p
    simp only [g16_vkx_go] at hc
    rcases h1 : g16_scalar_mul o ic sig with ⟨os, l1⟩
    have hl1 : l1 = [⟨7, beBytes 32 ic.x ++ beBytes 32 ic.y ++ beBytes 32 sig⟩] := by
      have := congrArg Prod.snd h1
      simpa [g16_scalar_mul] using this.symm
    rw [h1] at hc
    cases os with
    | none =>
      simp only [] at hc
      rw [hl1] at hc
      simp at hc
      simp [hc]
    | some p1 =>
      simp only [] at hc
      rcases h2 : g16_point_add o acc p1 with ⟨oa, l2⟩
      have hl2 : l2 = [⟨6, beBytes 32 acc.x ++ beBytes 32 acc.y ++
          beBytes 32 p1.x ++ beBytes 32 p1.y⟩] := by
        have := congrArg Prod.snd h2
        simpa [g16_point_add] using this.symm
      rw [h2] at hc
      cases oa with
      | none =>
        simp only [] at hc
        rw [hl1, hl2] at hc
        simp at hc
        rcases hc with hc | hc <;> simp [hc]
      | some t =>
        simp only [] at hc
        rw [hl1, hl2] at hc
        simp at hc
        rcases hc with hc | hc | hc
        · simp [hc]
        · simp [hc]
        · exact ih t c hc

/-- C4 amended: the Groth16 engine exposes no `negate_a` parameter and
negates `A` unconditionally — every EcPairing call it issues (for any
caller, in particular the SP1 dispatcher) carries
`negate(A)`, not `A`, as the first G1 argument, with the remaining slots
`B, α, β, vk_x, γ, C, δ`. -/
theorem c4_engine_always_negates_a (o : Oracle) (vk : G16VerificationKey)
    (a0 a1 b00 b01 b10 b11 c0 c1 : Nat) (w : List Nat) (c : OCall)
    (hc : c ∈ (g16_verify_proof_with_key o vk a0 a1 b00 b01 b10 b11 c0 c1
      w).2) (h8 : c.addr = 8) :
    ∃ vkx : G1Point,
      c.data = g16_pairing_calldata (g16_negate ⟨a0, a1⟩)
        ⟨b00, b01, b10, b11⟩ vk.alpha1 vk.beta2 vkx vk.gamma2 ⟨c0, c1⟩
        vk.delta2 := by
  unfold g16_verify_proof_with_key at hc
  by_cases hlen : w.length + 1 ≠ vk.ic.length
  · rw [if_pos hlen] at hc; simp at hc
  · rw [if_neg hlen] at hc
    by_cases hany : w.any (fun x => decide (R_MOD ≤ x)) = true
    · rw [if_pos hany] at hc; simp at hc
    · rw [if_neg (by simpa using hany)] at hc
      rcases hvk : vk.ic with _ | ⟨ic0, icrest⟩
      · rw [hvk] at hc; simp at hc
      · rw [hvk] at hc
        simp only [] at hc
        rcases h1 : g16_vkx_go o ic0 (w.zip icrest) with ⟨ov, l1⟩
        have hl1 : l1 = (g16_vkx_go o ic0 (w.zip icrest)).2 := by
          rw [h1]
        rw [h1] at hc
        cases ov with
        | none =>
          simp only [] at hc
          have h67 := g16_vkx_go_addrs o (w.zip icrest) ic0 c
            (by rw [← hl1]; exact hc)
          rcases h67 with h67 | h67 <;> (rw [h8] at h67; exact absurd h67 (by decide))
        | some vkx =>
          simp only [] at hc
          rcases h2 : g16_pairing_check o (g16_negate ⟨a0, a1⟩)
              ⟨b00, b01, b10, b11⟩ vk.alpha1 vk.beta2 vkx vk.gamma2
              ⟨c0, c1⟩ vk.delta2 with ⟨ob, l2⟩
          have hl2 : l2 = [⟨8, g16_pairing_calldata (g16_negate ⟨a0, a1⟩)
              ⟨b00, b01, b10, b11⟩ vk.alpha1 vk.beta2 vkx vk.gamma2
              ⟨c0, c1⟩ vk.delta2⟩] := by
            have := congrArg Prod.snd h2
            simpa [g16_pairing_check] using this.symm
          rw [h2] at hc
          cases ob with
          | none =>
            simp only [] at hc
            simp only [List.mem_append] at hc
            rcases hc with hc | hc
            · have h67 := g16_vkx_go_addrs o (w.zip icrest) ic0 c
                (by rw [← hl1]; exact hc)
              rcases h67 with h67 | h67 <;>
                (rw [h8] at h67; exact absurd h67 (by decide))
            · rw [hl2] at hc; simp at hc
              exact ⟨vkx, by rw [hc]⟩
          | some ok =>
            simp only [] at hc
            simp only [List.mem_append] at hc
            rcases hc with hc | hc
            · have h67 := g16_vkx_go_addrs o (w.zip icrest) ic0 c
                (by rw [← hl1]; exact hc)
              rcases h67 with h67 | h67 <;>
                (rw [h8] at h67; exact absurd h67 (by decide))
            · rw [hl2] at hc; simp at hc
              exact ⟨vkx, by rw [hc]⟩

/-- C4 counterexample: a concrete SP1 Groth16 dispatcher run
(`dec8` decodes `A = (17, 18)`) in which the pairing call's first G1
argument is `negate(A) = (17, Q − 18)`, NOT `A` — refuting the claim
that the SP1 variant passes `A` positive. -/
theorem c4_claim_counterexample :
    ∃ c ∈ c4run.2, c.addr = 8 ∧
      c.data.take 64 = beBytes 32 17 ++ beBytes 32 (Q_MOD - 18 % Q_MOD) ∧
      c.data.take 64 ≠ beBytes 32 17 ++ beBytes 32 18 := by
  decide

/-- C4 witness: the amended engine fact at a concrete run: the single
pairing call of the `o2`/`vkg` run indeed carries `negate((17,18))`
first. -/
theorem c4_witness :
    OCall.mk 8 (g16_pairing_calldata (g16_negate ⟨17, 18⟩) ⟨3, 4, 5, 6⟩
        vkg.alpha1 vkg.beta2 ⟨15, 16⟩ vkg.gamma2 ⟨19, 20⟩ vkg.delta2) ∈
      (g16_verify_proof_with_key o2 vkg 17 18 3 4 5 6 19 20 []).2 ∧
    ∃ vkx : G1Point,
      (OCall.mk 8 (g16_pairing_calldata (g16_negate ⟨17, 18⟩) ⟨3, 4, 5, 6⟩
        vkg.alpha1 vkg.beta2 ⟨15, 16⟩ vkg.gamma2 ⟨19, 20⟩
        vkg.delta2)).data =
        g16_pairing_calldata (g16_negate ⟨17, 18⟩) ⟨3, 4, 5, 6⟩ vkg.alpha1
          vkg.beta2 vkx vkg.gamma2 ⟨19, 20⟩ vkg.delta2 :=
  ⟨by decide,
    c4_engine_always_negates_a o2 vkg 17 18 3 4 5 6 19 20 [] _ (by decide)
      rfl⟩

/-- C10 amended: every elliptic-curve precompile failure propagates as an
error (`ec_add`/`ec_mul`/`pairing` of the sp1 crypto layer return `Err`;
the common PLONK `pairing_check` maps failure to `false`, i.e.
rejection), BUT `sha2evm::sha256` substitutes the all-zero digest for a
failed Sha256 precompile call instead of surfacing an error. -/
theorem c10_oracle_failure_behaviour :
    (∀ (o : Oracle) (p q : G1Point),
      o 6 (ec_add_calldata p q) = none → (ec_add o p q).1 = none) ∧
    (∀ (o : Oracle) (p : G1Point) (s : Nat),
      o 7 (ec_mul_calldata p s) = none → (ec_mul o p s).1 = none) ∧
    (∀ (o : Oracle) (pairs : List (G1Point × G2Point)),
      o 8 ((pairs.map (fun pq => pairing_pair_bytes pq.1 pq.2)).flatten) =
        none → (ec_pairing o pairs).1 = none) ∧
    (∀ (o : Oracle) (g1a : G1Point) (g2a : G2Point) (g1b : G1Point)
        (g2b : G2Point),
      o 8 (pv_pairing_calldata g1a g2a g1b g2b) = none →
      (pv_pairing_check o g1a g2a g1b g2b).1 = false) ∧
    (∀ (o : Oracle) (data : List Nat),
      o 2 data = none → sha2evm_sha256 o data = List.replicate 32 0) := by
  refine ⟨?_, ?_, ?_, ?_, ?_⟩
  · intro o p q h; simp [ec_add, h]
  · intro o p s h; simp [ec_mul, h]
  · intro o pairs h; simp [ec_pairing, h]
  · intro o g1a g2a g1b g2b h; simp [pv_pairing_check, h]
  · intro o data h; simp [sha2evm_sha256, h]

/-- C10 witness: the five behaviours at the always-failing oracle and
concrete arguments. -/
theorem c10_witness :
    (ec_add oF ⟨1, 2⟩ ⟨3, 4⟩).1 = none ∧
    (ec_mul oF ⟨1, 2⟩ 5).1 = none ∧
    (ec_pairing oF [(⟨1, 2⟩, ⟨3, 4, 5, 6⟩)]).1 = none ∧
    (pv_pairing_check oF ⟨1, 2⟩ ⟨3, 4, 5, 6⟩ ⟨7, 8⟩ ⟨9, 10, 11, 12⟩).1 =
      false ∧
    sha2evm_sha256 oF [5] = List.replicate 32 0 :=
  ⟨c10_oracle_failure_behaviour.1 oF ⟨1, 2⟩ ⟨3, 4⟩ rfl,
    c10_oracle_failure_behaviour.2.1 oF ⟨1, 2⟩ 5 rfl,
    c10_oracle_failure_behaviour.2.2.1 oF [(⟨1, 2⟩, ⟨3, 4, 5, 6⟩)] rfl,
    c10_oracle_failure_behaviour.2.2.2.1 oF ⟨1, 2⟩ ⟨3, 4, 5, 6⟩ ⟨7, 8⟩
      ⟨9, 10, 11, 12⟩ rfl,
    c10_oracle_failure_behaviour.2.2.2.2 oF [5] rfl⟩

/-- C7 amended: `compute(name)` succeeds only when the slot has ALREADY
been computed — in which case the cached value is returned and the state
(including `last_pos`) is unchanged — or when `name` is the immediate
successor of the last computed slot, in which case `last_pos` advances by
exactly one; and `bind` on an already-computed slot fails. -/
theorem c7_transcript_invariant :
    (∀ (sha : List Nat → List Nat) (t : Transcript) (id : String)
        (h : List Nat) (t2 : Transcript),
      Transcript.compute sha t id = some (h, t2) →
      (t2 = t ∧ ∃ idx c, t.idx_of id = some idx ∧
        t.ordered.get? idx = some c ∧ c.computed = true ∧ h = c.value) ∨
      (∃ idx, t.idx_of id = some idx ∧ (idx : Int) = t.last_pos + 1 ∧
        t2.last_pos = t.last_pos + 1)) ∧
    (∀ (t : Transcript) (id : String) (bytes : List Nat) (idx : Nat)
        (c : Challenge),
      t.idx_of id = some idx → t.ordered.get? idx = some c →
      c.computed = true → Transcript.bind t id bytes = none) := by
  constructor
  · intro sha t id h t2 hcomp
    unfold Transcript.compute at hcomp
    rcases hidx : t.idx_of id with _ | idx
    · rw [hidx] at hcomp; simp at hcomp
    · rw [hidx] at hcomp
      simp only [] at hcomp
      rcases hget : t.ordered.get? idx with _ | c
      · rw [hget] at hcomp; simp at hcomp
      · rw [hget] at hcomp
        simp only [] at hcomp
        by_cases hc : c.computed
        · rw [if_pos hc] at hcomp
          simp only [Option.some_inj, Prod.mk.injEq] at hcomp
          exact Or.inl ⟨hcomp.2.symm, idx, c, rfl, hget, hc,
            hcomp.1.symm⟩
        · rw [if_neg hc] at hcomp
          by_cases hord : (idx : Int) ≠ t.last_pos + 1
          · rw [if_pos hord] at hcomp; simp at hcomp
          · rw [if_neg hord] at hcomp
            push_neg at hord
            simp only [Option.some_inj, Prod.mk.injEq] at hcomp
            refine Or.inr ⟨idx, rfl, hord, ?_⟩
            rw [← hcomp.2]
            exact hord
  · intro t id bytes idx c hidx hget hc
    unfold Transcript.bind
    rw [hidx]
    simp only []
    rw [hget]
    simp only []
    rw [if_pos hc]

/-- C7 amended witness: the compute characterization applied to the
cached re-compute of `gamma` in `t7a`, and `bind` on the computed slot
failing. -/
theorem c7_witness :
    ((t7a = t7a ∧ ∃ idx c, t7a.idx_of "gamma" = some idx ∧
        t7a.ordered.get? idx = some c ∧ c.computed = true ∧
        List.replicate 32 0 = c.value) ∨
      (∃ idx, t7a.idx_of "gamma" = some idx ∧
        (idx : Int) = t7a.last_pos + 1 ∧
        t7a.last_pos = t7a.last_pos + 1)) ∧
    Transcript.bind t7a "gamma" [1] = none :=
  ⟨c7_transcript_invariant.1 sha0 t7a "gamma" (List.replicate 32 0) t7a
      (by decide),
    c7_transcript_invariant.2 t7a "gamma" [1] 0
      ⟨0, [], List.replicate 32 0, true, "gamma"⟩ (by decide) (by decide)
      rfl⟩

/-- If `batch_verify_commitments` reports success, its trace contains an
EcPairing call whose calldata is the CODE's pair list — first pair
`(W_ζ − y·G₁, kzg_g2)`, second pair `(W_ζ, ec_sub_g2(ec_mul_g2(kzg_g2,
ζ), kzg_g2))` — and the oracle answered it with a nonzero word. -/
theorem pv_bvc_accept_pairing (o : Oracle) (proof : PlonkProof)
    (ch : PlonkChallenges) (vk : PlonkVerificationKey)
    (h : (pv_batch_verify_commitments o proof ch vk).1 = true) :
    ∃ fmy ret,
      OCall.mk 8 (pv_pairing_calldata fmy vk.kzg_g2 proof.opening_proof
          (pv_ec_sub_g2 (pv_ec_mul_g2 vk.kzg_g2 ch.zeta) vk.kzg_g2)) ∈
        (pv_batch_verify_commitments o proof ch vk).2 ∧
      o 8 (pv_pairing_calldata fmy vk.kzg_g2 proof.opening_proof
          (pv_ec_sub_g2 (pv_ec_mul_g2 vk.kzg_g2 ch.zeta) vk.kzg_g2)) =
        some ret ∧ 32 ≤ ret.length ∧ fromBeBytes (ret.take 32) ≠ 0 := by
  unfold pv_batch_verify_commitments at h
  rcases h1 : pv_ec_mul o pv_g1_generator proof.quotient_evaluation with
    ⟨oy, l1⟩
  rw [h1] at h
  cases oy with
  | none => simp only [] at h; exact absurd h (by simp)
  | some y_g1 =>
    simp only [] at h
    rcases h2 : pv_ec_sub o proof.opening_proof y_g1 with ⟨os, l2⟩
    rw [h2] at h
    cases os with
    | none => simp only [] at h; exact absurd h (by simp)
    | some fmy =>
      simp only [] at h
      rcases h3 : pv_pairing_check o fmy vk.kzg_g2 proof.opening_proof
          (pv_ec_sub_g2 (pv_ec_mul_g2 vk.kzg_g2 ch.zeta) vk.kzg_g2) with
        ⟨ok, l3⟩
      rw [h3] at h
      simp only [] at h
      have hok : (pv_pairing_check o fmy vk.kzg_g2 proof.opening_proof
          (pv_ec_sub_g2 (pv_ec_mul_g2 vk.kzg_g2 ch.zeta) vk.kzg_g2)).1 =
          true := by
        rw [h3]; exact h
      have hl3 : l3 = [⟨8, pv_pairing_calldata fmy vk.kzg_g2
          proof.opening_proof (pv_ec_sub_g2 (pv_ec_mul_g2 vk.kzg_g2
            ch.zeta) vk.kzg_g2)⟩] := by
        have hx := congrArg Prod.snd h3
        simpa [pv_pairing_check] using hx.symm
      have htr : (pv_batch_verify_commitments o proof ch vk).2 =
          l1 ++ l2 ++ l3 := by
        unfold pv_batch_verify_commitments
        rw [h1]
        simp only []
        rw [h2]
        simp only []
        rw [h3]
      unfold pv_pairing_check at hok
      simp only [] at hok
      rcases h4 : o 8 (pv_pairing_calldata fmy vk.kzg_g2
          proof.opening_proof (pv_ec_sub_g2 (pv_ec_mul_g2 vk.kzg_g2
            ch.zeta) vk.kzg_g2)) with _ | ret
      · rw [h4] at hok; simp at hok
      · rw [h4] at hok
        simp only [] at hok
        by_cases hlen : 32 ≤ ret.length
        · rw [if_pos hlen] at hok
          refine ⟨fmy, ret, ?_, h4, hlen, by simpa using hok⟩
          rw [htr, hl3]
          simp [List.mem_append]
        · rw [if_neg hlen] at hok; exact absurd hok (by simp)

/-- If the common PLONK verifier accepts, `batch_verify_commitments`
reported success and the verifier's trace ends with its trace. -/
theorem pv_verify_accept_structure (o : Oracle) (vk : PlonkVerificationKey)
    (proof : PlonkProof) (w : List Nat)
    (h : (pv_verify_proof_with_key o vk proof w).1 = true) :
    (pv_batch_verify_commitments o proof (pv_compute_challenges proof)
      vk).1 = true ∧
    ∃ l1, (pv_verify_proof_with_key o vk proof w).2 =
      l1 ++ (pv_batch_verify_commitments o proof
        (pv_compute_challenges proof) vk).2 := by
  unfold pv_verify_proof_with_key at h
  by_cases hlen : w.length ≠ vk.num_public_inputs
  · rw [if_pos hlen] at h; simp at h
  · rw [if_neg hlen] at h
    by_cases hany : w.any (fun x => decide (R_MOD ≤ x)) = true
    · rw [if_pos hany] at h; simp at h
    · rw [if_neg hany] at h
      simp only [] at h
      rcases hq : pv_compute_quotient_evaluation proof
          (pv_compute_challenges proof) vk w with _ | q
      · rw [hq] at h; simp at h
      · rw [hq] at h
        simp only [] at h
        by_cases hqe : q ≠ proof.quotient_evaluation
        · rw [if_pos hqe] at h; simp at h
        · rw [if_neg hqe] at h
          rcases hb : pv_batch_verify_openings o proof
              (pv_compute_challenges proof) vk with ⟨b1, l1⟩
          rw [hb] at h
          cases b1 with
          | false => simp only [] at h; exact absurd h (by simp)
          | true =>
            simp only [] at h
            rcases hbvc : pv_batch_verify_commitments o proof
                (pv_compute_challenges proof) vk with ⟨ok, l2⟩
            rw [hbvc] at h
            simp only [] at h
            constructor
            · exact h
            · refine ⟨l1, ?_⟩
              have htr : (pv_verify_proof_with_key o vk proof w).2 =
                  l1 ++ l2 := by
                unfold pv_verify_proof_with_key
                rw [if_neg hlen, if_neg hany]
                simp only []
                rw [hq]
                simp only []
                rw [if_neg hqe, hb]
                simp only []
                rw [hbvc]
              rw [htr]

/-- C1 amended: `Sp1PlonkVerifier::verify_proof` returns `Ok` only if
the EcPairing oracle was invoked — once, inside
`batch_verify_commitments` — on the pair list the CODE builds,
`[(W_ζ − y·G₁, kzg_g2), (W_ζ, ec_sub_g2(ec_mul_g2(kzg_g2, ζ), kzg_g2))]`
(with the degenerate G2 arithmetic, so `kzg_g2` again whenever
`ζ ≠ 0`), and that call returned a nonzero word; the batched KZG opening
step itself (`verify_kzg_opening`) performs no pairing. -/
theorem c1_pairing_only_as_coded (o : Oracle) (sha : List Nat → List Nat)
    (dec : List Nat → Option PlonkProof) (sel : List Nat)
    (vk : PlonkVerificationKey) (vkv : Bool) (pvk pubv pb : List Nat)
    (h : (sp1_plonk_verify_proof o sha dec sel vk vkv pvk pubv pb).1 =
      some ()) :
    ∃ pf, dec (pb.drop 4) = some pf ∧
      ∃ fmy ret,
        OCall.mk 8 (pv_pairing_calldata fmy vk.kzg_g2 pf.opening_proof
            (pv_ec_sub_g2 (pv_ec_mul_g2 vk.kzg_g2
              (pv_compute_challenges pf).zeta) vk.kzg_g2)) ∈
          (sp1_plonk_verify_proof o sha dec sel vk vkv pvk pubv pb).2 ∧
        o 8 (pv_pairing_calldata fmy vk.kzg_g2 pf.opening_proof
            (pv_ec_sub_g2 (pv_ec_mul_g2 vk.kzg_g2
              (pv_compute_challenges pf).zeta) vk.kzg_g2)) = some ret ∧
        32 ≤ ret.length ∧ fromBeBytes (ret.take 32) ≠ 0 := by
  unfold sp1_plonk_verify_proof at h
  by_cases h4 : pb.length < 4
  · rw [if_pos h4] at h; simp at h
  · rw [if_neg h4] at h
    by_cases hsel : pb.take 4 ≠ sel
    · rw [if_pos hsel] at h; simp at h
    · rw [if_neg hsel] at h
      rcases hdec : dec (pb.drop 4) with _ | pf
      · rw [hdec] at h; simp at h
      · rw [hdec] at h
        simp only [] at h
        by_cases hvkv : (!vkv) = true
        · rw [if_pos hvkv] at h; simp at h
        · rw [if_neg hvkv] at h
          rcases hver : pv_verify_proof_with_key o vk pf
              (sp1_plonk_public_signals sha pvk pubv) with ⟨vb, l⟩
          rw [hver] at h
          cases vb with
          | false => simp only [] at h; exact absurd h (by simp)
          | true =>
            have hv1 : (pv_verify_proof_with_key o vk pf
                (sp1_plonk_public_signals sha pvk pubv)).1 = true := by
              rw [hver]
            obtain ⟨hbvc, l1, htr⟩ :=
              pv_verify_accept_structure o vk pf _ hv1
            obtain ⟨fmy, ret, hmem, hcall, hretlen, hnz⟩ :=
              pv_bvc_accept_pairing o pf (pv_compute_challenges pf) vk hbvc
            refine ⟨pf, rfl, fmy, ret, ?_, hcall, hretlen, hnz⟩
            have htrw : (sp1_plonk_verify_proof o sha dec sel vk vkv pvk
                pubv pb).2 = l := by
              unfold sp1_plonk_verify_proof
              rw [if_neg h4, if_neg hsel, hdec]
              simp only []
              rw [if_neg hvkv, hver]
            have hl : l = (pv_verify_proof_with_key o vk pf
                (sp1_plonk_public_signals sha pvk pubv)).2 := by
              rw [hver]
            rw [htrw, hl, htr]
            exact List.mem_append_right l1 hmem

set_option maxHeartbeats 4000000 in
/-- C1 counterexample: the claim requires the accepting pairing call to
be on the spec's step-8 pair list `[(D', g₂[0]), (−Q, g₂[1])]`, in
particular with `−Q` (the negated fold of the two opening witnesses) as
the second G1 argument.  In the concrete accepted run `c1run`, no
EcPairing call has that shape for ANY `D'` and G2 elements: the bytes at
offsets `[192, 256)` of the single pairing call are the coordinates of
`W_ζ = (22, 23)` itself, not of `−Q`. -/
theorem c1_claim_counterexample :
    c1run.1 = some () ∧
    ∀ c ∈ c1run.2, c.addr = 8 →
      ∀ (dP : G1Point) (g2a g2b : G2Point),
        c.data ≠ spec_step8_calldata dP q1spec g2a g2b := by
  constructor
  · decide
  · have hkey : ∀ c ∈ c1run.2, c.addr = 8 →
        (c.data.drop 192).take 64 = beBytes 32 22 ++ beBytes 32 23 := by
      decide
    intro c hc h8 dP g2a g2b heq
    have h1 := hkey c hc h8
    rw [heq, spec_step8_calldata_slice] at h1
    have h2 : ¬(beBytes 32 (g1_neg q1spec).x ++
        beBytes 32 (g1_neg q1spec).y = beBytes 32 22 ++ beBytes 32 23) := by
      decide
    exact h2 h1

set_option maxHeartbeats 4000000 in
/-- C1 witness: the amended pairing-shape fact at the concrete accepted
run. -/
theorem c1_witness :
    c1run.1 = some () ∧
    (∃ pf, dec1 (([0, 0, 0, 0] : List Nat).drop 4) = some pf ∧
      ∃ fmy ret,
        OCall.mk 8 (pv_pairing_calldata fmy vk1.kzg_g2 pf.opening_proof
            (pv_ec_sub_g2 (pv_ec_mul_g2 vk1.kzg_g2
              (pv_compute_challenges pf).zeta) vk1.kzg_g2)) ∈
          (sp1_plonk_verify_proof o1 sha0 dec1 [0, 0, 0, 0] vk1 true
            (List.replicate 32 0) [] [0, 0, 0, 0]).2 ∧
        o1 8 (pv_pairing_calldata fmy vk1.kzg_g2 pf.opening_proof
            (pv_ec_sub_g2 (pv_ec_mul_g2 vk1.kzg_g2
              (pv_compute_challenges pf).zeta) vk1.kzg_g2)) = some ret ∧
        32 ≤ ret.length ∧ fromBeBytes (ret.take 32) ≠ 0) :=
  ⟨by decide,
    c1_pairing_only_as_coded o1 sha0 dec1 [0, 0, 0, 0] vk1 true
      (List.replicate 32 0) [] [0, 0, 0, 0] (by decide)⟩

end Zk
